import Mathlib

/-!
Shallow embedding of the nanobind packaging script (`setup.py`).

The script has four parts, each modelled below from the source:

* version extraction: a regular expression
  `^\s*#\s*define\s+NB_VERSION_([A-Z]+)\s+(.*)$` (MULTILINE) is run with
  `findall` over the header text, the pairs are collected with `dict`
  (later bindings overwrite earlier ones) and the version string is
  produced by `"{MAJOR}.{MINOR}.{PATCH}".format(**matches)`, which raises
  `KeyError` on the first missing field, left to right;
* `NanobindSdistCommand.run`: sets `package_dir['nanobind'] = os.curdir`
  and delegates to the stock sdist packager — no build-tool resolution, no
  subprocess;
* `NanobindBuildPyCommand.run`: resolves `cmake` with `shutil.which`
  (diagnostic to stderr and `exit(1)` when absent), then inside
  `with TemporaryDirectory() as build_dir` runs the configure and the
  install stage through `subprocess.check_call` (which raises
  `CalledProcessError` on a non-zero exit), and finally delegates to the
  stock build_py packager;
* static `setup(...)` data: `package_dir = {'nanobind': install_dir}` and
  the `package_data` glob manifest.

External effects (environment, filesystem, subprocesses) are passed in
explicitly through an `Env` record, and every observable action is
recorded in an `InvocationResult` record.
-/

namespace NanobindSetup

/-- ASCII whitespace, the characters matched by the regex class \s on the
ASCII header text. -/
def pyIsSpace (c : Char) : Bool :=
  c = ' ' || c = '\t' || c = '\n' || c = '\r' || c = '\x0b' || c = '\x0c'

/-- The character class A-Z of the version regex capture group. -/
def isUpperAZ (c : Char) : Bool :=
  'A' ≤ c && c ≤ 'Z'

/-- Attempt to match the version regex at the head of `s`, which the caller
guarantees to be a MULTILINE line start (`^`).  The pattern
`\s*#\s*define\s+NB_VERSION_([A-Z]+)\s+(.*)$` is deterministic for a
greedy backtracking engine: every `\s` run is followed by a non-`\s`
literal and `(.*)$` always succeeds, so maximal munch needs no
backtracking.  Returns the two capture groups and the unmatched suffix.
After a successful match the suffix is empty or starts with a newline
whose preceding character is a non-newline value character, so the next
scan position is never a line start. -/
def matchDefineAt (s : List Char) : Option ((String × String) × List Char) :=
  match s.dropWhile pyIsSpace with
  | '#' :: r1 =>
    let s2 := r1.dropWhile pyIsSpace
    if s2.take 6 = "define".toList then
      let s3 := s2.drop 6
      match s3 with
      | c3 :: _ =>
        if pyIsSpace c3 then
          let s4 := s3.dropWhile pyIsSpace
          if s4.take 11 = "NB_VERSION_".toList then
            let s5 := s4.drop 11
            let field := s5.takeWhile isUpperAZ
            let s6 := s5.dropWhile isUpperAZ
            if field.isEmpty then none
            else
              match s6 with
              | c6 :: _ =>
                if pyIsSpace c6 then
                  let s7 := s6.dropWhile pyIsSpace
                  let value := s7.takeWhile (fun c => c ≠ '\n')
                  let rest := s7.dropWhile (fun c => c ≠ '\n')
                  some ((String.mk field, String.mk value), rest)
                else none
              | [] => none
          else none
        else none
      | [] => none
    else none
  | _ => none

/-- The `findall` scan: try the anchored pattern at every position that is
a MULTILINE line start, otherwise advance one character; after a match,
resume at the unmatched suffix (never a line start, see `matchDefineAt`).
`fuel` bounds the recursion; every step strictly shortens the text, so
`length + 1` fuel is always enough. -/
def findallAux : Nat → List Char → Bool → List (String × String)
  | 0, _, _ => []
  | _ + 1, [], _ => []
  | fuel + 1, c :: rest, atLineStart =>
    if atLineStart then
      match matchDefineAt (c :: rest) with
      | some (pair, remaining) => pair :: findallAux fuel remaining false
      | none => findallAux fuel rest (c = '\n')
    else
      findallAux fuel rest (c = '\n')

/-- `VERSION_REGEX.findall(text)`: the `(field, value)` capture pairs of
all non-overlapping matches, in text order. -/
def findall (text : String) : List (String × String) :=
  findallAux (text.toList.length + 1) text.toList true

/-- Lookup in `dict(pairs)`: the binding produced by the LAST pair with
the given key, since later `dict` insertions overwrite earlier ones. -/
def lookupLast : List (String × String) → String → Option String
  | [], _ => none
  | (k, v) :: rest, key =>
    match lookupLast rest key with
    | some v2 => some v2
    | none => if k = key then some v else none

/-- Python-level failures the script can raise or exit with. -/
inductive PyErr where
  | keyError (field : String)
  | calledProcessError (argv : List String) (code : Nat)
  deriving DecidableEq, Repr

/-- `"{MAJOR}.{MINOR}.{PATCH}".format(**matches)`: purely textual
substitution of the three raw tokens, raising `KeyError` on the first
field (left to right) that is absent from the mapping. -/
def formatVersion (ms : List (String × String)) : Except PyErr String :=
  match lookupLast ms "MAJOR" with
  | none => Except.error (PyErr.keyError "MAJOR")
  | some a =>
    match lookupLast ms "MINOR" with
    | none => Except.error (PyErr.keyError "MINOR")
    | some b =>
      match lookupLast ms "PATCH" with
      | none => Except.error (PyErr.keyError "PATCH")
      | some c => Except.ok (a ++ "." ++ b ++ "." ++ c)

/-- `nanobind_version` as computed at module load time from the header
text (lines 22-24 of the script). -/
def nanobindVersion (headerText : String) : Except PyErr String :=
  formatVersion (findall headerText)

/-- The value described by the spec as the last matching definition in the
text: the second component of the last `findall` pair carrying the key. -/
def lastValue (ps : List (String × String)) (key : String) : Option String :=
  (ps.reverse.find? (fun p => p.1 = key)).map Prod.snd

/-- `os.environ.get("NB_USE_SUBMODULE_DEPS", "ON")` (line 15). -/
def nbUseSubmoduleDeps (osEnv : String → Option String) : String :=
  (osEnv "NB_USE_SUBMODULE_DEPS").getD "ON"

/-- `os.curdir`, the value assigned to `package_dir['nanobind']` by the
sdist command (line 58). -/
def osCurdir : String := "."

/-- Resolution of a declared package root against the working directory:
`os.curdir` denotes the invoking process's current directory, an absolute
path denotes itself. -/
def resolveRoot (cwd root : String) : String :=
  if root = osCurdir then cwd else root

/-- The `package_data` glob manifest passed to `setup(...)`
(lines 104-121), a single module-level literal. -/
def nanobindPackageData : List String :=
  [ "include/nanobind/**/*.h"
  , "include/nanobind/intrusive/*.inl"
  , "**/cmake/nanobind-config.cmake"
  , "**/cmake/nanobind.cmake"
  , "**/cmake/darwin-ld-cpython.sym"
  , "**/cmake/darwin-ld-pypy.sym"
  , "src/**/*.h"
  , "src/**/*.cpp"
  , "src/**/*.py"
  , "**/ext/robin_map/include/tsl/*.h"
  , "**/ext/robin_map/*.natvis"
  , "**/ext/robin_map/CMakeLists.txt"
  , "CMakeLists.txt"
  , "nanobind-config.cmake.in"
  , "tests/*.h"
  , "tests/*.cpp" ]

/-- The argv of the configure stage `subprocess.check_call`
(lines 72-81). -/
def configureArgv (cmakeExe thisDir buildDir deps : String) : List String :=
  [ cmakeExe, "-S", thisDir, "-B", buildDir
  , "-DNB_PYTHON_INSTALLATION=ON"
  , "-DNB_USE_SUBMODULE_DEPS=" ++ deps ]

/-- The argv of the install stage `subprocess.check_call`
(lines 83-86). -/
def installArgv (cmakeExe buildDir installDir : String) : List String :=
  [cmakeExe, "--install", buildDir, "--prefix", installDir]

/-- All external facts an invocation of the script depends on: the process
environment, the header contents, filesystem paths, `shutil.which`
resolution, the names the two `TemporaryDirectory` calls produce, and the
exit codes the two cmake stages would return if spawned. -/
structure Env where
  osEnv : String → Option String
  headerText : String
  thisDirectory : String
  cwd : String
  cmakePath : Option String
  installDirName : String
  buildDirName : String
  configureExit : Nat
  installExit : Nat

/-- How an invocation of the script ends. -/
inductive Outcome where
  | success
  | exitCode (code : Nat)
  | raised (e : PyErr)
  deriving DecidableEq, Repr

/-- Every observable action of one invocation: `shutil.which` lookups,
spawned subprocess argvs in order, stderr diagnostics, the build-workspace
lifecycle, whether the stock packager ran and, if it did, the
`package_dir['nanobind']` root it saw and the glob manifest it was
given. -/
structure InvocationResult where
  whichCalls : List String
  spawned : List (List String)
  stderrLines : List String
  workspaceCreated : Bool
  workspaceRemoved : Bool
  packagerRan : Bool
  activeRoot : Option String
  manifest : List String
  outcome : Outcome

/-- `NanobindSdistCommand.run` (lines 54-59): set
`package_dir['nanobind'] = os.curdir`, then delegate to the stock sdist
packager.  Nothing else happens: no `shutil.which`, no subprocess, no
temporary directory. -/
def sdistRun (_env : Env) : InvocationResult :=
  { whichCalls := []
  , spawned := []
  , stderrLines := []
  , workspaceCreated := false
  , workspaceRemoved := false
  , packagerRan := true
  , activeRoot := some osCurdir
  , manifest := nanobindPackageData
  , outcome := Outcome.success }

/-- The body of `with TemporaryDirectory() as build_dir:` (lines 69-86):
run the configure stage, then the install stage, each through
`subprocess.check_call`, stopping at the first stage whose exit code is
non-zero (`CalledProcessError`).  Returns the argvs actually spawned and
the raised error, if any. -/
def orchestrateBody (env : Env) (cmakeExe buildDir : String) :
    List (List String) × Option PyErr :=
  let cfg := configureArgv cmakeExe env.thisDirectory buildDir
      (nbUseSubmoduleDeps env.osEnv)
  if env.configureExit = 0 then
    let inst := installArgv cmakeExe buildDir env.installDirName
    if env.installExit = 0 then
      ([cfg, inst], none)
    else
      ([cfg, inst], some (PyErr.calledProcessError inst env.installExit))
  else
    ([cfg], some (PyErr.calledProcessError cfg env.configureExit))

/-- The `with TemporaryDirectory()` context manager: the body runs and the
directory is removed on scope exit whether or not the body raised.  The
boolean records the removal. -/
def withTempBuildDir (buildDir : String) (body : String → α) : α × Bool :=
  (body buildDir, true)

/-- `NanobindBuildPyCommand.run` (lines 62-88): resolve cmake via
`shutil.which` — on failure print a diagnostic to stderr and `exit(1)`
with no subprocess spawned; otherwise run configure and install inside the
ephemeral build workspace.  A `CalledProcessError` propagates out and the
stock build_py packager (which packages from
`package_dir['nanobind'] = install_dir`, line 103) runs only when both
stages exited zero. -/
def buildPyRun (env : Env) : InvocationResult :=
  match env.cmakePath with
  | none =>
    { whichCalls := ["cmake"]
    , spawned := []
    , stderrLines := ["CMake executable can't be found"]
    , workspaceCreated := false
    , workspaceRemoved := false
    , packagerRan := false
    , activeRoot := none
    , manifest := nanobindPackageData
    , outcome := Outcome.exitCode 1 }
  | some cmakeExe =>
    let r := withTempBuildDir env.buildDirName (orchestrateBody env cmakeExe)
    match r.1.2 with
    | some e =>
      { whichCalls := ["cmake"]
      , spawned := r.1.1
      , stderrLines := []
      , workspaceCreated := true
      , workspaceRemoved := r.2
      , packagerRan := false
      , activeRoot := none
      , manifest := nanobindPackageData
      , outcome := Outcome.raised e }
    | none =>
      { whichCalls := ["cmake"]
      , spawned := r.1.1
      , stderrLines := []
      , workspaceCreated := true
      , workspaceRemoved := r.2
      , packagerRan := true
      , activeRoot := some env.installDirName
      , manifest := nanobindPackageData
      , outcome := Outcome.success }

/-- The two packaging command forms of the script. -/
inductive PackagingCmd where
  | buildPy
  | sdistCmd
  deriving DecidableEq, Repr

/-- The result of a module-load failure: the `KeyError` escapes before
`setup(...)` is reached, so neither command runs, nothing is spawned and
nothing is packaged. -/
def loadFailure (e : PyErr) : InvocationResult :=
  { whichCalls := []
  , spawned := []
  , stderrLines := []
  , workspaceCreated := false
  , workspaceRemoved := false
  , packagerRan := false
  , activeRoot := none
  , manifest := []
  , outcome := Outcome.raised e }

/-- A whole invocation of `setup.py <cmd>`: the module loads first
(computing `nanobind_version` from the header, lines 22-24), and only if
that succeeds does the requested command run. -/
def runInvocation (env : Env) (cmd : PackagingCmd) : InvocationResult :=
  match nanobindVersion env.headerText with
  | Except.error e => loadFailure e
  | Except.ok _ =>
    match cmd with
    | PackagingCmd.buildPy => buildPyRun env
    | PackagingCmd.sdistCmd => sdistRun env

/-- The three version defines of the testable property, values 1, 2, 3. -/
def majorLine : String := "#define NB_VERSION_MAJOR 1"

/-- Minor-field define line with value 2. -/
def minorLine : String := "#define NB_VERSION_MINOR 2"

/-- Patch-field define line with value 3. -/
def patchLine : String := "#define NB_VERSION_PATCH 3"

/-- A concrete environment for witnesses: header with all three fields,
cmake resolvable, both stages succeeding, process run from the repository
root. -/
def sampleEnv : Env :=
  { osEnv := fun _ => none
  , headerText :=
      "#define NB_VERSION_MAJOR 1\n#define NB_VERSION_MINOR 2\n#define NB_VERSION_PATCH 3"
  , thisDirectory := "/repo/nanobind"
  , cwd := "/repo/nanobind"
  , cmakePath := some "/usr/bin/cmake"
  , installDirName := "/tmp/nanobind_cmake_abc123"
  , buildDirName := "/tmp/tmpbuildws"
  , configureExit := 0
  , installExit := 0 }

/-- `sampleEnv` with a header that lacks the PATCH field. -/
def missingFieldEnv : Env :=
  { sampleEnv with
      headerText := "#define NB_VERSION_MAJOR 1\n#define NB_VERSION_MINOR 2" }

/-- `sampleEnv` with no resolvable cmake executable. -/
def noCmakeEnv : Env :=
  { sampleEnv with cmakePath := none }

/-- `sampleEnv` whose install stage exits with status 2. -/
def installFailEnv : Env :=
  { sampleEnv with installExit := 2 }

/-- `sampleEnv` whose orchestration installs into `/tmp/X`. -/
def tmpXEnv : Env :=
  { sampleEnv with installDirName := "/tmp/X" }

/-- `sampleEnv` with the dependency toggle set to OFF in the process
environment. -/
def depsOffEnv : Env :=
  { sampleEnv with
      osEnv := fun k =>
        if k = "NB_USE_SUBMODULE_DEPS" then some "OFF" else none }

/-- A header that defines MAJOR twice (1, then 9) and also a field FOO
that is not part of the version template. -/
def dupHeader : String :=
  "#define NB_VERSION_MAJOR 1\n#define NB_VERSION_MAJOR 9\n#define NB_VERSION_FOO X\n#define NB_VERSION_MINOR 2\n#define NB_VERSION_PATCH 3"

/-! Helper lemmas about the dictionary model and small lists. -/

theorem lookupLast_eq_none_of_forall_ne (ps : List (String × String))
    (key : String) (h : ∀ p ∈ ps, p.1 ≠ key) : lookupLast ps key = none := by
  induction ps with
  | nil => rfl
  | cons p rest ih =>
    obtain ⟨k, v⟩ := p
    simp only [lookupLast]
    rw [ih (fun q hq => h q (List.mem_cons_of_mem _ hq))]
    simp [h (k, v) (List.mem_cons_self _ _)]

theorem lookupLast_eq_lastValue (ps : List (String × String)) (key : String) :
    lookupLast ps key = lastValue ps key := by
  induction ps with
  | nil => rfl
  | cons p rest ih =>
    obtain ⟨k, v⟩ := p
    simp only [lookupLast, lastValue, List.reverse_cons, List.find?_append]
    rw [ih]
    cases hfind : List.find? (fun p => p.1 = key) rest.reverse with
    | some q =>
      simp [lastValue, hfind, Option.or]
    | none =>
      simp only [lastValue, hfind, Option.map_none, Option.none_or]
      by_cases hk : k = key <;> simp [List.find?, hk]

theorem configureArgv_ne_installArgv (c1 t b1 d c2 b2 i : String) :
    configureArgv c1 t b1 d ≠ installArgv c2 b2 i := by
  intro hEq
  have := congrArg List.length hEq
  simp [configureArgv, installArgv] at this

/-- Whenever the build tool resolves, the first spawned subprocess is the
configure stage, regardless of how the stages exit. -/
theorem buildPyRun_spawned_head (env : Env) (p : String)
    (hp : env.cmakePath = some p) :
    (buildPyRun env).spawned.head? =
      some (configureArgv p env.thisDirectory env.buildDirName
        (nbUseSubmoduleDeps env.osEnv)) := by
  simp only [buildPyRun, hp, withTempBuildDir, orchestrateBody]
  by_cases hc : env.configureExit = 0 <;> by_cases hi : env.installExit = 0 <;>
    simp [hc, hi]

/-- Shape of a `buildPyRun` whose configure stage exits non-zero. -/
theorem buildPyRun_configure_fail (env : Env) (p : String)
    (hp : env.cmakePath = some p) (hc : env.configureExit ≠ 0) :
    buildPyRun env =
      { whichCalls := ["cmake"]
      , spawned := [configureArgv p env.thisDirectory env.buildDirName
          (nbUseSubmoduleDeps env.osEnv)]
      , stderrLines := []
      , workspaceCreated := true
      , workspaceRemoved := true
      , packagerRan := false
      , activeRoot := none
      , manifest := nanobindPackageData
      , outcome := Outcome.raised (PyErr.calledProcessError
          (configureArgv p env.thisDirectory env.buildDirName
            (nbUseSubmoduleDeps env.osEnv)) env.configureExit) } := by
  simp [buildPyRun, hp, withTempBuildDir, orchestrateBody, hc]

/-- Shape of a `buildPyRun` whose configure stage succeeds and whose
install stage exits non-zero. -/
theorem buildPyRun_install_fail (env : Env) (p : String)
    (hp : env.cmakePath = some p) (hc : env.configureExit = 0)
    (hi : env.installExit ≠ 0) :
    buildPyRun env =
      { whichCalls := ["cmake"]
      , spawned := [configureArgv p env.thisDirectory env.buildDirName
            (nbUseSubmoduleDeps env.osEnv)
          , installArgv p env.buildDirName env.installDirName]
      , stderrLines := []
      , workspaceCreated := true
      , workspaceRemoved := true
      , packagerRan := false
      , activeRoot := none
      , manifest := nanobindPackageData
      , outcome := Outcome.raised (PyErr.calledProcessError
          (installArgv p env.buildDirName env.installDirName)
          env.installExit) } := by
  simp [buildPyRun, hp, withTempBuildDir, orchestrateBody, hc, hi]

/-- Shape of a `buildPyRun` whose two stages both exit zero. -/
theorem buildPyRun_success (env : Env) (p : String)
    (hp : env.cmakePath = some p) (hc : env.configureExit = 0)
    (hi : env.installExit = 0) :
    buildPyRun env =
      { whichCalls := ["cmake"]
      , spawned := [configureArgv p env.thisDirectory env.buildDirName
            (nbUseSubmoduleDeps env.osEnv)
          , installArgv p env.buildDirName env.installDirName]
      , stderrLines := []
      , workspaceCreated := true
      , workspaceRemoved := true
      , packagerRan := true
      , activeRoot := some env.installDirName
      , manifest := nanobindPackageData
      , outcome := Outcome.success } := by
  simp [buildPyRun, hp, withTempBuildDir, orchestrateBody, hc, hi]

/-! The claims. -/

/-- Claim C1: a source-distribution invocation never invokes the build
tool — `shutil.which` is not called and no subprocess is spawned — and
after the root rewrite the active package source root for 'nanobind',
resolved against the working directory (the repository root, where a
`setup.py` command runs), equals the original repository root. -/
theorem sdist_bypasses_build_and_restores_repo_root (env : Env)
    (hcwd : env.cwd = env.thisDirectory) :
    (sdistRun env).whichCalls = [] ∧
    (sdistRun env).spawned = [] ∧
    (sdistRun env).activeRoot = some osCurdir ∧
    resolveRoot env.cwd osCurdir = env.thisDirectory := by
  refine ⟨rfl, rfl, rfl, ?_⟩
  simp [resolveRoot, hcwd]

/-- Witness for C1 at the concrete sample environment. -/
theorem sdist_bypasses_build_and_restores_repo_root_witness :
    (sdistRun sampleEnv).whichCalls = [] ∧
    (sdistRun sampleEnv).spawned = [] ∧
    (sdistRun sampleEnv).activeRoot = some osCurdir ∧
    resolveRoot sampleEnv.cwd osCurdir = sampleEnv.thisDirectory :=
  sdist_bypasses_build_and_restores_repo_root sampleEnv rfl

/-- Claim C2: when some field among MAJOR, MINOR, PATCH has no matching
macro definition in the header text, version extraction fails with a
`KeyError` naming a missing field, no version string is produced, and the
failure happens at module load time: the invocation of either packaging
command spawns no subprocess, resolves no tool and never reaches the
packager. -/
theorem missing_version_field_fails_at_load (env : Env) (cmd : PackagingCmd)
    (h : ∃ f ∈ ["MAJOR", "MINOR", "PATCH"],
      ∀ pr ∈ findall env.headerText, pr.1 ≠ f) :
    (∃ g, nanobindVersion env.headerText = Except.error (PyErr.keyError g)) ∧
    (∀ s, nanobindVersion env.headerText ≠ Except.ok s) ∧
    (runInvocation env cmd).spawned = [] ∧
    (runInvocation env cmd).whichCalls = [] ∧
    (runInvocation env cmd).packagerRan = false := by
  obtain ⟨f, hfmem, hno⟩ := h
  have hn : lookupLast (findall env.headerText) f = none :=
    lookupLast_eq_none_of_forall_ne _ _ hno
  have herr : ∃ g, nanobindVersion env.headerText
      = Except.error (PyErr.keyError g) := by
    simp only [List.mem_cons, List.not_mem_nil, or_false] at hfmem
    rcases hfmem with rfl | rfl | rfl
    · exact ⟨"MAJOR", by simp [nanobindVersion, formatVersion, hn]⟩
    · cases hmaj : lookupLast (findall env.headerText) "MAJOR" with
      | none =>
        exact ⟨"MAJOR", by simp [nanobindVersion, formatVersion, hmaj]⟩
      | some a =>
        exact ⟨"MINOR", by simp [nanobindVersion, formatVersion, hmaj, hn]⟩
    · cases hmaj : lookupLast (findall env.headerText) "MAJOR" with
      | none =>
        exact ⟨"MAJOR", by simp [nanobindVersion, formatVersion, hmaj]⟩
      | some a =>
        cases hmin : lookupLast (findall env.headerText) "MINOR" with
        | none =>
          exact ⟨"MINOR", by simp [nanobindVersion, formatVersion, hmaj, hmin]⟩
        | some b =>
          exact ⟨"PATCH",
            by simp [nanobindVersion, formatVersion, hmaj, hmin, hn]⟩
  obtain ⟨g, hg⟩ := herr
  refine ⟨⟨g, hg⟩, ?_, ?_, ?_, ?_⟩
  · intro s hs
    rw [hg] at hs
    exact Except.noConfusion hs
  · simp [runInvocation, hg, loadFailure]
  · simp [runInvocation, hg, loadFailure]
  · simp [runInvocation, hg, loadFailure]

set_option maxRecDepth 20000 in
/-- Witness for C2: a header with MAJOR and MINOR but no PATCH. -/
theorem missing_version_field_fails_at_load_witness :
    (∃ g, nanobindVersion missingFieldEnv.headerText
        = Except.error (PyErr.keyError g)) ∧
    (∀ s, nanobindVersion missingFieldEnv.headerText ≠ Except.ok s) ∧
    (runInvocation missingFieldEnv PackagingCmd.buildPy).spawned = [] ∧
    (runInvocation missingFieldEnv PackagingCmd.buildPy).whichCalls = [] ∧
    (runInvocation missingFieldEnv PackagingCmd.buildPy).packagerRan
      = false :=
  missing_version_field_fails_at_load missingFieldEnv PackagingCmd.buildPy
    ⟨"PATCH", by decide, by decide⟩

/-- Claim C3: when the build tool is not resolvable on the search path,
the binary-build command spawns no subprocess, writes a diagnostic to the
error stream, exits the whole process with status 1, and never reaches
the packager. -/
theorem missing_build_tool_exits_one_without_spawn (env : Env)
    (h : env.cmakePath = none) :
    (buildPyRun env).spawned = [] ∧
    (buildPyRun env).stderrLines = ["CMake executable can't be found"] ∧
    (buildPyRun env).outcome = Outcome.exitCode 1 ∧
    (buildPyRun env).packagerRan = false := by
  simp [buildPyRun, h]

/-- Witness for C3 at the concrete environment without cmake. -/
theorem missing_build_tool_exits_one_without_spawn_witness :
    (buildPyRun noCmakeEnv).spawned = [] ∧
    (buildPyRun noCmakeEnv).stderrLines
      = ["CMake executable can't be found"] ∧
    (buildPyRun noCmakeEnv).outcome = Outcome.exitCode 1 ∧
    (buildPyRun noCmakeEnv).packagerRan = false :=
  missing_build_tool_exits_one_without_spawn noCmakeEnv rfl

/-- Claim C4: a non-zero exit of either the configure or the install
stage propagates as a raised `CalledProcessError` carrying that non-zero
code; packaging does not proceed, no install directory is handed to the
packaging step, and no stage is retried (the spawned argv list has no
repeated entry). -/
theorem stage_failure_aborts_packaging (env : Env) (p : String)
    (hp : env.cmakePath = some p)
    (h : env.configureExit ≠ 0 ∨ env.installExit ≠ 0) :
    (∃ argv code, (buildPyRun env).outcome
        = Outcome.raised (PyErr.calledProcessError argv code) ∧ code ≠ 0) ∧
    (buildPyRun env).packagerRan = false ∧
    (buildPyRun env).activeRoot = none ∧
    ((buildPyRun env).spawned).Nodup := by
  by_cases hc : env.configureExit = 0
  · have hi : env.installExit ≠ 0 := by tauto
    rw [buildPyRun_install_fail env p hp hc hi]
    refine ⟨⟨installArgv p env.buildDirName env.installDirName,
      env.installExit, rfl, hi⟩, rfl, rfl, ?_⟩
    simp [List.nodup_cons, configureArgv_ne_installArgv]
  · rw [buildPyRun_configure_fail env p hp hc]
    exact ⟨⟨configureArgv p env.thisDirectory env.buildDirName
      (nbUseSubmoduleDeps env.osEnv), env.configureExit, rfl, hc⟩,
      rfl, rfl, List.nodup_singleton _⟩

/-- Witness for C4 at the concrete environment whose install stage exits
with status 2. -/
theorem stage_failure_aborts_packaging_witness :
    (∃ argv code, (buildPyRun installFailEnv).outcome
        = Outcome.raised (PyErr.calledProcessError argv code) ∧ code ≠ 0) ∧
    (buildPyRun installFailEnv).packagerRan = false ∧
    (buildPyRun installFailEnv).activeRoot = none ∧
    ((buildPyRun installFailEnv).spawned).Nodup :=
  stage_failure_aborts_packaging installFailEnv "/usr/bin/cmake" rfl
    (Or.inr (by decide))

set_option maxRecDepth 20000 in
/-- Claim C5: for the three version define lines with values 1, 2, 3 in
any order, version extraction yields exactly the string "1.2.3". -/
theorem version_extracted_in_any_order (l : List String)
    (h : List.Perm l [majorLine, minorLine, patchLine]) :
    nanobindVersion (String.intercalate "\n" l) = Except.ok "1.2.3" := by
  have hlen : l.length = 3 := by simpa using h.length_eq
  obtain ⟨u, v, w, rfl⟩ : ∃ u v w, l = [u, v, w] := by
    rcases l with _ | ⟨u, _ | ⟨v, _ | ⟨w, _ | ⟨s, t⟩⟩⟩⟩ <;> simp_all
  have hsub := h.subset
  have hu : u ∈ [majorLine, minorLine, patchLine] := hsub (by simp)
  have hv : v ∈ [majorLine, minorLine, patchLine] := hsub (by simp)
  have hw : w ∈ [majorLine, minorLine, patchLine] := hsub (by simp)
  have hM := h.count_eq majorLine
  have hm := h.count_eq minorLine
  have hpa := h.count_eq patchLine
  simp only [List.mem_cons, List.not_mem_nil, or_false] at hu hv hw
  rcases hu with rfl | rfl | rfl <;> rcases hv with rfl | rfl | rfl <;>
      rcases hw with rfl | rfl | rfl <;>
    first
      | rfl
      | (exfalso; revert hM hm hpa;
         simp [majorLine, minorLine, patchLine, List.count_cons])

set_option maxRecDepth 20000 in
/-- Witness for C5 at the order patch, major, minor. -/
theorem version_extracted_in_any_order_witness :
    nanobindVersion
        (String.intercalate "\n" [patchLine, majorLine, minorLine])
      = Except.ok "1.2.3" :=
  version_extracted_in_any_order [patchLine, majorLine, minorLine]
    (@List.perm_append_comm String [patchLine] [majorLine, minorLine])

/-- Claim C6: when orchestration succeeds, the packager runs with the
active package source root equal to the orchestrated install directory,
never the repository root (the ephemeral install directory is a fresh
path distinct from it). -/
theorem binary_build_packages_from_install_dir (env : Env) (p : String)
    (hp : env.cmakePath = some p) (hc : env.configureExit = 0)
    (hi : env.installExit = 0)
    (hne : env.installDirName ≠ env.thisDirectory) :
    (buildPyRun env).packagerRan = true ∧
    (buildPyRun env).activeRoot = some env.installDirName ∧
    (buildPyRun env).activeRoot ≠ some env.thisDirectory := by
  rw [buildPyRun_success env p hp hc hi]
  refine ⟨rfl, rfl, ?_⟩
  simp [hne]

/-- Witness for C6 at the concrete environment installing into /tmp/X. -/
theorem binary_build_packages_from_install_dir_witness :
    (buildPyRun tmpXEnv).packagerRan = true ∧
    (buildPyRun tmpXEnv).activeRoot = some tmpXEnv.installDirName ∧
    (buildPyRun tmpXEnv).activeRoot ≠ some tmpXEnv.thisDirectory :=
  binary_build_packages_from_install_dir tmpXEnv "/usr/bin/cmake" rfl rfl
    rfl (by decide)

/-- Claim C7: whenever the binary-build orchestration runs (the tool
resolved), the ephemeral build workspace is created and is removed by the
end of the call, whatever the configure and install stages do. -/
theorem build_workspace_always_removed (env : Env) (p : String)
    (hp : env.cmakePath = some p) :
    (buildPyRun env).workspaceCreated = true ∧
    (buildPyRun env).workspaceRemoved = true := by
  by_cases hc : env.configureExit = 0
  · by_cases hi : env.installExit = 0
    · rw [buildPyRun_success env p hp hc hi]
      exact ⟨rfl, rfl⟩
    · rw [buildPyRun_install_fail env p hp hc hi]
      exact ⟨rfl, rfl⟩
  · rw [buildPyRun_configure_fail env p hp hc]
    exact ⟨rfl, rfl⟩

/-- Witness for C7 at the concrete environment whose install stage
fails, showing cleanup on the failure path as well. -/
theorem build_workspace_always_removed_witness :
    (buildPyRun installFailEnv).workspaceCreated = true ∧
    (buildPyRun installFailEnv).workspaceRemoved = true :=
  build_workspace_always_removed installFailEnv "/usr/bin/cmake" rfl

/-- Claim C8: the configure stage receives exactly the argument
`-DNB_USE_SUBMODULE_DEPS=v`, where `v` is the environment variable's
value passed through verbatim, or the documented default "ON" when the
variable is unset. -/
theorem submodule_deps_forwarded_verbatim (env : Env) (p v : String)
    (hp : env.cmakePath = some p)
    (hv : env.osEnv "NB_USE_SUBMODULE_DEPS" = some v ∨
      (env.osEnv "NB_USE_SUBMODULE_DEPS" = none ∧ v = "ON")) :
    ∃ cfg, (buildPyRun env).spawned.head? = some cfg ∧
      cfg = configureArgv p env.thisDirectory env.buildDirName v ∧
      ("-DNB_USE_SUBMODULE_DEPS=" ++ v) ∈ cfg := by
  have hdeps : nbUseSubmoduleDeps env.osEnv = v := by
    rcases hv with h1 | ⟨h1, h2⟩
    · simp [nbUseSubmoduleDeps, h1]
    · simp [nbUseSubmoduleDeps, h1, h2]
  refine ⟨configureArgv p env.thisDirectory env.buildDirName v, ?_, rfl, ?_⟩
  · rw [buildPyRun_spawned_head env p hp, hdeps]
  · simp [configureArgv]

/-- Witness for C8 at the concrete environment with the toggle set to
OFF. -/
theorem submodule_deps_forwarded_verbatim_witness :
    ∃ cfg, (buildPyRun depsOffEnv).spawned.head? = some cfg ∧
      cfg = configureArgv "/usr/bin/cmake" depsOffEnv.thisDirectory
        depsOffEnv.buildDirName "OFF" ∧
      ("-DNB_USE_SUBMODULE_DEPS=" ++ "OFF") ∈ cfg :=
  submodule_deps_forwarded_verbatim depsOffEnv "/usr/bin/cmake" "OFF" rfl
    (Or.inl rfl)

/-- Claim C9: the glob-pattern manifest handed to the packager is the
same list — same patterns, same order — in the source-distribution and
the binary-build variant, whatever either environment looks like. -/
theorem manifest_identical_across_variants (envS envB : Env) :
    (sdistRun envS).manifest = (buildPyRun envB).manifest ∧
    (sdistRun envS).manifest = nanobindPackageData := by
  refine ⟨?_, rfl⟩
  cases hp : envB.cmakePath with
  | none => simp [sdistRun, buildPyRun, hp]
  | some p =>
    by_cases hc : envB.configureExit = 0
    · by_cases hi : envB.installExit = 0
      · rw [buildPyRun_success envB p hp hc hi]
        rfl
      · rw [buildPyRun_install_fail envB p hp hc hi]
        rfl
    · rw [buildPyRun_configure_fail envB p hp hc]
      rfl


/-- Claim C10: duplicate definitions of a version field do not make
extraction fail: the value of the last matching definition in the text is
the one used for each field, so matched fields other than MAJOR, MINOR,
PATCH have no effect on the output. -/
theorem duplicate_fields_use_last_definition (text a b c : String)
    (ha : lastValue (findall text) "MAJOR" = some a)
    (hb : lastValue (findall text) "MINOR" = some b)
    (hc : lastValue (findall text) "PATCH" = some c) :
    nanobindVersion text = Except.ok (a ++ "." ++ b ++ "." ++ c) := by
  have ha2 := (lookupLast_eq_lastValue (findall text) "MAJOR").trans ha
  have hb2 := (lookupLast_eq_lastValue (findall text) "MINOR").trans hb
  have hc2 := (lookupLast_eq_lastValue (findall text) "PATCH").trans hc
  simp [nanobindVersion, formatVersion, ha2, hb2, hc2]

set_option maxRecDepth 20000 in
/-- Witness for C10: MAJOR defined twice (1 then 9) plus an unrelated
FOO field; the result uses the last MAJOR value. -/
theorem duplicate_fields_use_last_definition_witness :
    nanobindVersion dupHeader = Except.ok ("9" ++ "." ++ "2" ++ "." ++ "3") :=
  duplicate_fields_use_last_definition dupHeader "9" "2" "3"
    (by rfl) (by rfl) (by rfl)

end NanobindSetup
